import Mathlib

/-!
Verification of the `june` API client (EnergieID/june).

The repository holds two near-duplicate Python clients for the June energy
REST API: a current one (`src/june/june.py`, namespace `Current` below) and a
legacy one (`src/june.py`, namespace `Legacy` below).  This file gives a
shallow embedding of both clients and settles the specification claims.

Modelling conventions:
- JSON values are an inductive `Json`; Python exceptions become the `PyError`
  type and operations return `Except PyError`.
- The network is a pure function `World : Request → Response` handing the
  final HTTP response (status plus parsed JSON body) to each issued request.
  Every client operation returns the result, the client state after the call,
  and the list of requests it issued, in order.
- Python datetimes are civil fields plus an optional fixed UTC offset in
  minutes (pytz tzinfo instances carry a fixed offset; seconds and
  microseconds are omitted since whole-minute offsets never let them move the
  formatted calendar date).
-/

namespace June

/-- Parsed JSON values, as returned by `Response.json()`. -/
inductive Json where
  | null
  | bool (b : Bool)
  | num (n : Int)
  | str (s : String)
  | arr (elems : List Json)
  | obj (fields : List (String × Json))

/-- The Python exceptions the client code can raise. -/
inductive PyError where
  | notAuthenticatedError
  | multipleIdError
  | httpError (status : Nat)
  | keyError (key : String)
  | typeError
  | valueError
deriving DecidableEq

/-- Python subscript `j[k]`: field lookup on a dict (`KeyError` when the key
is missing), `TypeError` on any non-dict value. -/
def Json.get : Json → String → Except PyError Json
  | .obj fields, k =>
      match fields.lookup k with
      | some v => .ok v
      | none => .error (.keyError k)
  | _, _ => .error .typeError

/-- Python truthiness of a JSON value. -/
def Json.truthy : Json → Bool
  | .null => false
  | .bool b => b
  | .num n => n != 0
  | .str s => !s.isEmpty
  | .arr elems => !elems.isEmpty
  | .obj fields => !fields.isEmpty

/-- Python `str()` of a JSON value, used by `"Bearer \x7b\x7d".format(token)`.
Exact for the scalar values a token can realistically be; container values
are abbreviated, no claim depends on them. -/
def pyStr : Json → String
  | .null => "None"
  | .bool b => cond b "True" "False"
  | .num n => toString n
  | .str s => s
  | .arr _ => "<list>"
  | .obj _ => "<dict>"

/-- Model of `dt.datetime` with an optional fixed-offset tzinfo: `tzOffset = none`
models a naive datetime, `tzOffset = some o` a timezone-aware one whose UTC
offset is `o` minutes. -/
structure PyDatetime where
  year : Int
  month : Nat
  day : Nat
  hour : Nat
  minute : Nat
  tzOffset : Option Int
deriving DecidableEq

/-- The three input shapes `_to_date` accepts: a string, a `dt.date` (which
has no `tzinfo` attribute), or a `dt.datetime`. -/
inductive DateObj where
  | str (s : String)
  | date (year : Int) (month day : Nat)
  | datetime (t : PyDatetime)

/-- Numeric value of a decimal digit character. -/
def digitVal (c : Char) : Nat := c.toNat - 48

/-- CPython `_strptime` pattern for `%Y`: exactly four decimal digits. -/
def parseYear4 : List Char → Option (Nat × List Char)
  | a :: b :: c :: d :: rest =>
      if a.isDigit && b.isDigit && c.isDigit && d.isDigit then
        some (1000 * digitVal a + 100 * digitVal b + 10 * digitVal c + digitVal d, rest)
      else none
  | _ => none

/-- CPython `_strptime` pattern for `%m`, alternation `1[0-2]|0[1-9]|[1-9]`.
The one-character fallback needs the following character to be a dash, which
no two-character alternative could have consumed, so this greedy
first-alternative-wins parser matches the regex with backtracking. -/
def parseMonth : List Char → Option (Nat × List Char)
  | a :: b :: rest =>
      if a == '1' && b.isDigit && digitVal b ≤ 2 then some (10 + digitVal b, rest)
      else if a == '0' && b.isDigit && 1 ≤ digitVal b then some (digitVal b, rest)
      else if a.isDigit && 1 ≤ digitVal a then some (digitVal a, b :: rest)
      else none
  | [a] => if a.isDigit && 1 ≤ digitVal a then some (digitVal a, []) else none
  | [] => none

/-- CPython `_strptime` pattern for `%d`, alternation
`3[01]|[12][0-9]|0[1-9]|[1-9]`; greedy for the same reason as `parseMonth`. -/
def parseDay : List Char → Option (Nat × List Char)
  | a :: b :: rest =>
      if a == '3' && b.isDigit && digitVal b ≤ 1 then some (30 + digitVal b, rest)
      else if (a == '1' || a == '2') && b.isDigit then some (10 * digitVal a + digitVal b, rest)
      else if a == '0' && b.isDigit && 1 ≤ digitVal b then some (digitVal b, rest)
      else if a.isDigit && 1 ≤ digitVal a then some (digitVal a, b :: rest)
      else none
  | [a] => if a.isDigit && 1 ≤ digitVal a then some (digitVal a, []) else none
  | [] => none

def isLeapYear (y : Nat) : Bool :=
  y % 4 == 0 && (y % 100 != 0 || y % 400 == 0)

def daysInMonth (y m : Nat) : Nat :=
  if m == 2 then (if isLeapYear y then 29 else 28)
  else if m == 4 || m == 6 || m == 9 || m == 11 then 30
  else 31

/-- Embedding of `dt.datetime.strptime(s, fmt)` with `fmt` the literal pattern
yyyy-mm-dd: the regex must consume the whole string (CPython raises
`ValueError` for unconverted trailing data) and the matched fields must form
a valid `datetime` (year at least 1, day within the month), else
`ValueError`. Returns the parsed fields on success. -/
def strptimeYmd (s : String) : Option (Nat × Nat × Nat) :=
  match parseYear4 s.toList with
  | none => none
  | some (y, r1) =>
    match r1 with
    | '-' :: r2 =>
      match parseMonth r2 with
      | none => none
      | some (m, r3) =>
        match r3 with
        | '-' :: r4 =>
          match parseDay r4 with
          | none => none
          | some (d, r5) =>
            if r5.isEmpty ∧ 1 ≤ y ∧ d ≤ daysInMonth y m then some (y, m, d) else none
        | _ => none
    | _ => none

/-- Zero-pad a number to two digits, as `%m` and `%d` do. -/
def pad2 (n : Nat) : String := if n < 10 then "0" ++ toString n else toString n

/-- Formatting with `strftime` and the literal pattern yyyy-mm-dd (glibc leaves `%Y`
unpadded; every year in scope has four digits, where the two agree). -/
def strftimeYmd (y : Int) (m d : Nat) : String :=
  toString y ++ "-" ++ pad2 m ++ "-" ++ pad2 d

/-- Days since 1970-01-01 of a civil date (proleptic Gregorian). -/
def daysFromCivil (y : Int) (m d : Nat) : Int :=
  let y2 : Int := if m ≤ 2 then y - 1 else y
  let era : Int := (if 0 ≤ y2 then y2 else y2 - 399).fdiv 400
  let yoe : Int := y2 - era * 400
  let mp : Int := if 2 < m then (m : Int) - 3 else (m : Int) + 9
  let doy : Int := (153 * mp + 2).fdiv 5 + (d : Int) - 1
  let doe : Int := yoe * 365 + yoe.fdiv 4 - yoe.fdiv 100 + doy
  era * 146097 + doe - 719468

/-- Civil date of a count of days since 1970-01-01. -/
def civilFromDays (z0 : Int) : Int × Nat × Nat :=
  let z : Int := z0 + 719468
  let era : Int := (if 0 ≤ z then z else z - 146096).fdiv 146097
  let doe : Int := z - era * 146097
  let yoe : Int := (doe - doe.fdiv 1460 + doe.fdiv 36524 - doe.fdiv 146096).fdiv 365
  let y : Int := yoe + era * 400
  let doy : Int := doe - (365 * yoe + yoe.fdiv 4 - yoe.fdiv 100)
  let mp : Int := (5 * doy + 2).fdiv 153
  let d : Int := doy - (153 * mp + 2).fdiv 5 + 1
  let m : Int := if mp < 10 then mp + 3 else mp - 9
  (if m ≤ 2 then y + 1 else y, m.toNat, d.toNat)

/-- Embedding of `dt.datetime.astimezone(pytz.UTC)` on an aware datetime whose tzinfo has
fixed offset `o` minutes: shift the civil fields by `-o` minutes and attach
the UTC (offset 0) tzinfo. -/
def astimezoneUTC (t : PyDatetime) (o : Int) : PyDatetime :=
  let total : Int :=
    daysFromCivil t.year t.month t.day * 1440 + (t.hour : Int) * 60 + (t.minute : Int) - o
  let z : Int := total.fdiv 1440
  let rem : Nat := (total - z * 1440).toNat
  let c := civilFromDays z
  { year := c.1, month := c.2.1, day := c.2.2, hour := rem / 60, minute := rem % 60,
    tzOffset := some 0 }

/-- Embedding of `June._to_date` (src/june/june.py lines 169-194): a string is validated
with `strptime` against yyyy-mm-dd and returned unchanged (the caught
`ValueError` is re-raised); a value with a non-None `tzinfo` attribute is
converted to UTC first; everything is then formatted with `strftime`. -/
def to_date : DateObj → Except PyError String
  | .str s =>
    match strptimeYmd s with
    | some _ => .ok s
    | none => .error .valueError
  | .date y m d => .ok (strftimeYmd y m d)
  | .datetime t =>
    match t.tzOffset with
    | none => .ok (strftimeYmd t.year t.month t.day)
    | some o =>
      let u := astimezoneUTC t o
      .ok (strftimeYmd u.year u.month u.day)

/-- An HTTP request as the `requests` library receives it: method, full URL,
headers, query parameters, and form data. -/
structure Request where
  method : String
  url : String
  headers : List (String × String)
  params : List (String × String)
  formData : List (String × String)
deriving DecidableEq

/-- The final HTTP response to a request: status code and parsed JSON body
(`Response.json()`; responses whose body is not JSON are out of scope, no
claim mentions them). -/
structure Response where
  status : Nat
  body : Json

/-- The network: a deterministic assignment of a response to every request. -/
abbrev World := Request → Response

/-- Client state: the `access_token` attribute set by `__init__` (default
`None`) and by `authenticate`. -/
structure Client where
  access_token : Option Json

/-- The fixed base URL shared by both variants. -/
def URL : String := "https://api-portal.june.energy/"

/-- Truthiness of the token attribute: the `authenticated` decorator guard is
`not self.access_token`, which is falsy for `None` and for falsy values such
as the empty string. -/
def tokenTruthy : Option Json → Bool
  | none => false
  | some j => j.truthy

/-- Python `str()` of the token attribute (format of `None` is `"None"`). -/
def tokenStr : Option Json → String
  | none => "None"
  | some j => pyStr j

/-- Embedding of `requests.Response.raise_for_status()`: raises `HTTPError` carrying the
status for 4xx client errors and 5xx server errors, and returns normally for
every other status. -/
def raise_for_status (r : Response) : Except PyError Unit :=
  if 400 ≤ r.status ∧ r.status < 600 then .error (.httpError r.status) else .ok ()

/-- The authorization header sent on every authenticated call:
`"Bearer \x7b\x7d".format(self.access_token)`. -/
def bearerHeaders (token : Option Json) : List (String × String) :=
  [("Authorization", "Bearer " ++ tokenStr token)]

/-- The password-grant request `authenticate` posts. -/
def authRequest (username password : String) : Request :=
  { method := "POST", url := URL ++ "oauth/token", headers := [], params := [],
    formData := [("grant_type", "password"), ("username", username), ("password", password)] }

/-- The contract-listing request (identical in both variants). -/
def contractsRequest (c : Client) : Request :=
  { method := "GET", url := URL ++ "contracts", headers := bearerHeaders c.access_token,
    params := [], formData := [] }

/-- Every operation returns its result, the client state after the call, and
the requests it issued, in order. -/
abbrev OpResult (α : Type) : Type := Except PyError α × Client × List Request

/-- Python `==` between a decoded JSON value and an int (Python bools are
ints, so `True == 1`). -/
def Json.eqInt : Json → Int → Bool
  | .num n, i => n == i
  | .bool b, i => (cond b 1 0 : Int) == i
  | _, _ => false

namespace Current

/-- Embedding of `June.authenticate` (src/june/june.py lines 47-63): post the credentials,
raise for a 4xx/5xx status, then store `j["access_token"]` (a missing field
raises `KeyError` and leaves the token unchanged). -/
def authenticate (c : Client) (w : World) (username password : String) : OpResult Unit :=
  let req := authRequest username password
  let r := w req
  match raise_for_status r with
  | .error e => (.error e, c, [req])
  | .ok _ =>
    match r.body.get "access_token" with
    | .error e => (.error e, c, [req])
    | .ok tok => (.ok (), { access_token := some tok }, [req])

/-- Embedding of `June.get_contracts` (src/june/june.py lines 65-78), wrapped by the
`authenticated` decorator. -/
def get_contracts (c : Client) (w : World) : OpResult Json :=
  if tokenTruthy c.access_token then
    let req := contractsRequest c
    let r := w req
    match raise_for_status r with
    | .error e => (.error e, c, [req])
    | .ok _ => (.ok r.body, c, [req])
  else (.error .notAuthenticatedError, c, [])

/-- Embedding of `June.get_contract_ids` (src/june/june.py lines 80-90): the comprehension
`[contract["id"] for contract in contracts["data"]]` over the fetched
payload.  Iterating a non-list `data` value is modelled as `TypeError`. -/
def get_contract_ids (c : Client) (w : World) : OpResult (List Json) :=
  match get_contracts c w with
  | (.error e, c2, tr) => (.error e, c2, tr)
  | (.ok contracts, c2, tr) =>
    match contracts.get "data" with
    | .error e => (.error e, c2, tr)
    | .ok (.arr entries) => (entries.mapM (fun contract => contract.get "id"), c2, tr)
    | .ok _ => (.error .typeError, c2, tr)

/-- The device-listing request of the current variant:
`GET contracts/\x7bcontract_id\x7d/devices`. -/
def devicesRequest (c : Client) (contract_id : Int) : Request :=
  { method := "GET", url := URL ++ "contracts/" ++ toString contract_id ++ "/devices",
    headers := bearerHeaders c.access_token, params := [], formData := [] }

/-- Embedding of `June.get_devices` (src/june/june.py lines 92-109), wrapped by the
`authenticated` decorator. -/
def get_devices (c : Client) (w : World) (contract_id : Int) : OpResult Json :=
  if tokenTruthy c.access_token then
    let req := devicesRequest c contract_id
    let r := w req
    match raise_for_status r with
    | .error e => (.error e, c, [req])
    | .ok _ => (.ok r.body, c, [req])
  else (.error .notAuthenticatedError, c, [])

/-- The measurements request: `GET devices/\x7bdevice_id\x7d/measures` with
the period and the two already-coerced date strings as query filters. -/
def measuresRequest (c : Client) (device_id period : Int) (startStr endStr : String) : Request :=
  { method := "GET", url := URL ++ "devices/" ++ toString device_id ++ "/measures",
    headers := bearerHeaders c.access_token,
    params := [("filter[period]", toString period), ("filter[start]", startStr),
               ("filter[end]", endStr)],
    formData := [] }

/-- Embedding of `June.get_measurements` (src/june/june.py lines 111-140), wrapped by the
`authenticated` decorator.  The params dict evaluates `_to_date(start)` and
then `_to_date(end)` before any request is issued, so a coercion error
escapes with no network call. -/
def get_measurements (c : Client) (w : World) (device_id period : Int)
    (start finish : DateObj) : OpResult Json :=
  if tokenTruthy c.access_token then
    match to_date start with
    | .error e => (.error e, c, [])
    | .ok startStr =>
      match to_date finish with
      | .error e => (.error e, c, [])
      | .ok endStr =>
        let req := measuresRequest c device_id period startStr endStr
        let r := w req
        match raise_for_status r with
        | .error e => (.error e, c, [req])
        | .ok _ => (.ok r.body, c, [req])
  else (.error .notAuthenticatedError, c, [])

/-- The loop body of `get_start_end` (src/june/june.py lines 210-216): scan
`devices["data"]` in order, and on the first entry whose `id` equals the
requested device id return its parsed `created_at` and `last_image_date`
attributes; when the loop finishes without a match, the for-else returns
`(None, None)`.  `dateutil.parser.parse` is an external dependency, passed in
as `parse`; calling it on a non-string raises `TypeError`. -/
def scan_devices (parse : String → Except PyError PyDatetime) (device_id : Int) :
    List Json → Except PyError (Option PyDatetime × Option PyDatetime)
  | [] => .ok (none, none)
  | device :: rest =>
    match device.get "id" with
    | .error e => .error e
    | .ok i =>
      if i.eqInt device_id then
        match device.get "attributes" with
        | .error e => .error e
        | .ok attrs =>
          match attrs.get "created_at" with
          | .error e => .error e
          | .ok createdAt =>
            match attrs.get "last_image_date" with
            | .error e => .error e
            | .ok lastImage =>
              match createdAt, lastImage with
              | .str s1, .str s2 =>
                match parse s1 with
                | .error e => .error e
                | .ok startT =>
                  match parse s2 with
                  | .error e => .error e
                  | .ok endT => .ok (some startT, some endT)
              | _, _ => .error .typeError
      else scan_devices parse device_id rest

/-- Embedding of `June.get_start_end` (src/june/june.py lines 196-216): fetch the devices
of the contract, then scan them for the device id. -/
def get_start_end (c : Client) (w : World) (parse : String → Except PyError PyDatetime)
    (contract_id device_id : Int) :
    OpResult (Option PyDatetime × Option PyDatetime) :=
  match get_devices c w contract_id with
  | (.error e, c2, tr) => (.error e, c2, tr)
  | (.ok devices, c2, tr) =>
    match devices.get "data" with
    | .error e => (.error e, c2, tr)
    | .ok (.arr entries) => (scan_devices parse device_id entries, c2, tr)
    | .ok _ => (.error .typeError, c2, tr)

end Current

namespace Legacy

/-- Embedding of `June.authenticate` (src/june.py lines 33-43), textually the same code as
the current variant. -/
def authenticate (c : Client) (w : World) (username password : String) : OpResult Unit :=
  let req := authRequest username password
  let r := w req
  match raise_for_status r with
  | .error e => (.error e, c, [req])
  | .ok _ =>
    match r.body.get "access_token" with
    | .error e => (.error e, c, [req])
    | .ok tok => (.ok (), { access_token := some tok }, [req])

/-- Embedding of `June.get_contracts` (src/june.py lines 45-51), wrapped by the
`authenticated` decorator; same endpoint and handling as the current
variant. -/
def get_contracts (c : Client) (w : World) : OpResult Json :=
  if tokenTruthy c.access_token then
    let req := contractsRequest c
    let r := w req
    match raise_for_status r with
    | .error e => (.error e, c, [req])
    | .ok _ => (.ok r.body, c, [req])
  else (.error .notAuthenticatedError, c, [])

/-- Embedding of `June.get_ids` (src/june.py lines 53-56): the same comprehension
`[contract["id"] for contract in contracts["data"]]` as the current
variant. -/
def get_ids (c : Client) (w : World) : OpResult (List Json) :=
  match get_contracts c w with
  | (.error e, c2, tr) => (.error e, c2, tr)
  | (.ok contracts, c2, tr) =>
    match contracts.get "data" with
    | .error e => (.error e, c2, tr)
    | .ok (.arr entries) => (entries.mapM (fun contract => contract.get "id"), c2, tr)
    | .ok _ => (.error .typeError, c2, tr)

/-- Embedding of `June.get_id` (src/june.py lines 58-63): return the sole id when the list
has length one, raise `MultipleIdError` otherwise. -/
def get_id (c : Client) (w : World) : OpResult Json :=
  match get_ids c w with
  | (.error e, c2, tr) => (.error e, c2, tr)
  | (.ok ids, c2, tr) =>
    match ids with
    | [i] => (.ok i, c2, tr)
    | _ => (.error .multipleIdError, c2, tr)

/-- The device request of the legacy variant: `GET devices/\x7bid\x7d`. -/
def devicesRequest (c : Client) (id : Int) : Request :=
  { method := "GET", url := URL ++ "devices/" ++ toString id,
    headers := bearerHeaders c.access_token, params := [], formData := [] }

/-- Embedding of `June.get_devices` (src/june.py lines 65-71), wrapped by the
`authenticated` decorator. -/
def get_devices (c : Client) (w : World) (id : Int) : OpResult Json :=
  if tokenTruthy c.access_token then
    let req := devicesRequest c id
    let r := w req
    match raise_for_status r with
    | .error e => (.error e, c, [req])
    | .ok _ => (.ok r.body, c, [req])
  else (.error .notAuthenticatedError, c, [])

end Legacy

/-! Spec-side definitions, written from the words of the specification and
compared with the embedded code. -/

/-- Purely syntactic check for the literal shape yyyy-mm-dd the spec names:
exactly four digits, a dash, two digits, a dash, two digits. -/
def matchesYmdShape (s : String) : Bool :=
  match s.toList with
  | [y1, y2, y3, y4, h1, m1, m2, h2, d1, d2] =>
      y1.isDigit && y2.isDigit && y3.isDigit && y4.isDigit &&
      h1 == '-' && m1.isDigit && m2.isDigit && h2 == '-' && d1.isDigit && d2.isDigit
  | _ => false

/-- The UTC calendar day of an aware datetime, stated independently of
`astimezoneUTC`: put the civil fields on the minute time line, subtract the
offset, and floor-divide into days. -/
def utcCivilDate (t : PyDatetime) (o : Int) : Int × Nat × Nat :=
  civilFromDays
    ((daysFromCivil t.year t.month t.day * 1440 + (t.hour : Int) * 60 + (t.minute : Int)
      - o).fdiv 1440)

/-! Concrete payload builders used to state the payload-shaped claims. -/

/-- A contracts payload of shape data over entries that each carry their id
first and then arbitrary extra fields. -/
def contractsPayload (ids : List Int) (extra : Int → List (String × Json)) : Json :=
  .obj [("data", .arr (ids.map fun i => .obj (("id", .num i) :: extra i)))]

/-- A single device entry of a devices payload: id plus an attributes object
holding the two timestamp strings. -/
def deviceEntry (v : Int × String × String) : Json :=
  .obj [("id", .num v.1),
        ("attributes", .obj [("created_at", .str v.2.1), ("last_image_date", .str v.2.2)])]

/-- A devices payload of shape data over device entries. -/
def devicesPayload (devs : List (Int × String × String)) : Json :=
  .obj [("data", .arr (devs.map deviceEntry))]

end June


namespace June

/-- Evaluation of `_to_date` on a string input: validated against yyyy-mm-dd
via `strptime` and returned unchanged, or `ValueError`. -/
theorem to_date_str_eval (s : String) :
    to_date (.str s) = if (strptimeYmd s).isSome then .ok s else .error .valueError := by
  have e1 : to_date (.str s) = match strptimeYmd s with
    | some _ => .ok s
    | none => .error .valueError := rfl
  rw [e1]
  cases strptimeYmd s <;> rfl

/-- Claim C1: for every client whose access token is absent, each
data-fetching operation of either variant raises `NotAuthenticatedError`
immediately, with an empty request trace, so no network request is issued. -/
theorem c1_unauthenticated_gate (w : World) (contract_id device_id period : Int)
    (start finish : DateObj) :
    Current.get_contracts ⟨none⟩ w = (.error .notAuthenticatedError, ⟨none⟩, []) ∧
    Current.get_devices ⟨none⟩ w contract_id = (.error .notAuthenticatedError, ⟨none⟩, []) ∧
    Current.get_measurements ⟨none⟩ w device_id period start finish
      = (.error .notAuthenticatedError, ⟨none⟩, []) ∧
    Legacy.get_contracts ⟨none⟩ w = (.error .notAuthenticatedError, ⟨none⟩, []) ∧
    Legacy.get_devices ⟨none⟩ w device_id = (.error .notAuthenticatedError, ⟨none⟩, []) :=
  ⟨rfl, rfl, rfl, rfl, rfl⟩

/-- Claim C2, counterexample to the claim as stated: the string 2020-1-5
does not match the yyyy-mm-dd shape yet is accepted and returned unchanged
rather than raising, and the string 2020-02-30 matches the yyyy-mm-dd shape
yet raises `ValueError` rather than being returned unchanged. -/
theorem c2_counterexample :
    (matchesYmdShape "2020-1-5" = false ∧ to_date (.str "2020-1-5") = .ok "2020-1-5") ∧
    (matchesYmdShape "2020-02-30" = true ∧
      to_date (.str "2020-02-30") = .error .valueError) :=
  ⟨⟨rfl, rfl⟩, ⟨rfl, rfl⟩⟩

/-- Claim C2 (amended): the string branch of the date coercion never
reformats its input — it returns the string unchanged exactly when `strptime`
accepts it against yyyy-mm-dd (four-digit year, one- or two-digit month and
day forming a valid calendar date), and raises `ValueError` otherwise; in
particular 2020-01-15 passes through unchanged and 15-01-2020 raises. -/
theorem c2_string_date_coercion (s r : String) :
    (to_date (.str s) = .ok r → r = s) ∧
    (to_date (.str s) = .ok s ↔ (strptimeYmd s).isSome = true) ∧
    to_date (.str "2020-01-15") = .ok "2020-01-15" ∧
    to_date (.str "15-01-2020") = .error .valueError := by
  refine ⟨?_, ?_, rfl, rfl⟩
  · intro h
    rw [to_date_str_eval] at h
    by_cases hp : (strptimeYmd s).isSome
    · rw [if_pos hp] at h
      exact (Except.ok.inj h).symm
    · rw [if_neg hp] at h
      exact absurd h (by simp)
  · rw [to_date_str_eval]
    by_cases hp : (strptimeYmd s).isSome
    · simp [hp]
    · simp [hp]

/-- Witness for claim C2: the amended theorem applied at 2020-01-15. -/
theorem c2_string_date_coercion_witness :
    to_date (.str "2020-01-15") = .ok "2020-01-15" ∧ ("2020-01-15" : String) = "2020-01-15" :=
  ⟨((c2_string_date_coercion "2020-01-15" "2020-01-15").2.1).mpr rfl,
   (c2_string_date_coercion "2020-01-15" "2020-01-15").1
     (((c2_string_date_coercion "2020-01-15" "2020-01-15").2.1).mpr rfl)⟩

/-- Claim C3: on a timezone-aware datetime the coercion formats the civil
date of the UTC conversion; the aware datetime 2020-01-15T23:00 at offset
+02:00 formats to 2020-01-15 (UTC 21:00 the same day), and 2020-01-15T23:00
at offset -02:00 crosses the day boundary (UTC 01:00 the next day) and
formats to the UTC day 2020-01-16, not the local day 2020-01-15. -/
theorem c3_aware_datetime_formats_utc_day (t : PyDatetime) (o : Int)
    (h : t.tzOffset = some o) :
    to_date (.datetime t) =
      .ok (strftimeYmd (utcCivilDate t o).1 (utcCivilDate t o).2.1 (utcCivilDate t o).2.2) ∧
    to_date (.datetime ⟨2020, 1, 15, 23, 0, some 120⟩) = .ok "2020-01-15" ∧
    to_date (.datetime ⟨2020, 1, 15, 23, 0, some (-120)⟩) = .ok "2020-01-16" ∧
    "2020-01-16" ≠ strftimeYmd 2020 1 15 := by
  refine ⟨?_, rfl, rfl, by decide⟩
  have e1 : to_date (.datetime t) = match t.tzOffset with
    | none => .ok (strftimeYmd t.year t.month t.day)
    | some o =>
      let u := astimezoneUTC t o
      .ok (strftimeYmd u.year u.month u.day) := rfl
  rw [e1, h]
  rfl

/-- Witness for claim C3: the theorem applied at the aware datetime
2020-01-15T23:00 with offset +02:00. -/
theorem c3_aware_datetime_formats_utc_day_witness :
    to_date (.datetime ⟨2020, 1, 15, 23, 0, some 120⟩) = .ok "2020-01-15" :=
  (c3_aware_datetime_formats_utc_day ⟨2020, 1, 15, 23, 0, some 120⟩ 120 rfl).2.1

/-- The comprehension over a constructed contracts payload extracts exactly
the id fields of the entries, in order. -/
theorem mapM_get_id (ids : List Int) (extra : Int → List (String × Json)) :
    (ids.map fun i => Json.obj (("id", Json.num i) :: extra i)).mapM
      (fun contract => contract.get "id") = .ok (ids.map Json.num) := by
  induction ids with
  | nil => rfl
  | cons i rest ih =>
    rw [List.map_cons, List.mapM_cons, ih]
    have hget : (Json.obj (("id", Json.num i) :: extra i)).get "id" = .ok (.num i) := rfl
    rw [hget]
    rfl

/-- Evaluation of `get_contracts` of the current variant on a truthy token: one request,
and the response handling of `raise_for_status`. -/
theorem current_get_contracts_eval (c : Client) (w : World)
    (htok : tokenTruthy c.access_token = true) :
    Current.get_contracts c w =
      match raise_for_status (w (contractsRequest c)) with
      | .error e => (.error e, c, [contractsRequest c])
      | .ok _ => (.ok (w (contractsRequest c)).body, c, [contractsRequest c]) := by
  have e1 : Current.get_contracts c w =
      if tokenTruthy c.access_token then
        match raise_for_status (w (contractsRequest c)) with
        | .error e => (.error e, c, [contractsRequest c])
        | .ok _ => (.ok (w (contractsRequest c)).body, c, [contractsRequest c])
      else (.error .notAuthenticatedError, c, []) := rfl
  rw [e1, htok]
  rfl

/-- Evaluation of `get_contract_ids` of the current variant on a 200 response carrying a
constructed contracts payload. -/
theorem current_get_contract_ids_eval (c : Client) (w : World) (ids : List Int)
    (extra : Int → List (String × Json))
    (htok : tokenTruthy c.access_token = true)
    (hresp : w (contractsRequest c) = ⟨200, contractsPayload ids extra⟩) :
    Current.get_contract_ids c w = (.ok (ids.map Json.num), c, [contractsRequest c]) := by
  have hc := current_get_contracts_eval c w htok
  rw [hresp] at hc
  have hc2 : Current.get_contracts c w
      = (.ok (contractsPayload ids extra), c, [contractsRequest c]) := by
    rw [hc]
    rfl
  unfold Current.get_contract_ids
  rw [hc2]
  show ((ids.map fun i => Json.obj (("id", Json.num i) :: extra i)).mapM
      (fun contract => contract.get "id"), c, [contractsRequest c])
    = (.ok (ids.map Json.num), c, [contractsRequest c])
  rw [mapM_get_id]

/-- Evaluation of `get_ids` of the legacy variant on the same payload: the legacy code is
the same composition, so the same evaluation holds. -/
theorem legacy_get_ids_eval (c : Client) (w : World) (ids : List Int)
    (extra : Int → List (String × Json))
    (htok : tokenTruthy c.access_token = true)
    (hresp : w (contractsRequest c) = ⟨200, contractsPayload ids extra⟩) :
    Legacy.get_ids c w = (.ok (ids.map Json.num), c, [contractsRequest c]) := by
  have h : Legacy.get_ids c w = Current.get_contract_ids c w := rfl
  rw [h]
  exact current_get_contract_ids_eval c w ids extra htok hresp

/-- Claim C4: on a contracts payload of shape data, both the current
`get_contract_ids` and the legacy `get_ids` return the id field of every
entry of the data array, in array order. -/
theorem c4_contract_ids_in_order (c : Client) (w : World) (ids : List Int)
    (extra : Int → List (String × Json))
    (htok : tokenTruthy c.access_token = true)
    (hresp : w (contractsRequest c) = ⟨200, contractsPayload ids extra⟩) :
    Current.get_contract_ids c w = (.ok (ids.map Json.num), c, [contractsRequest c]) ∧
    Legacy.get_ids c w = (.ok (ids.map Json.num), c, [contractsRequest c]) :=
  ⟨current_get_contract_ids_eval c w ids extra htok hresp,
   legacy_get_ids_eval c w ids extra htok hresp⟩

/-- Witness for claim C4: the payload with ids 1 and 2 yields the id list
with 1 before 2, in both variants. -/
theorem c4_contract_ids_in_order_witness :
    Current.get_contract_ids ⟨some (.str "token")⟩
        (fun _ => ⟨200, contractsPayload [1, 2] (fun _ => [])⟩)
      = (.ok [.num 1, .num 2], ⟨some (.str "token")⟩,
         [contractsRequest ⟨some (.str "token")⟩]) ∧
    Legacy.get_ids ⟨some (.str "token")⟩
        (fun _ => ⟨200, contractsPayload [1, 2] (fun _ => [])⟩)
      = (.ok [.num 1, .num 2], ⟨some (.str "token")⟩,
         [contractsRequest ⟨some (.str "token")⟩]) :=
  c4_contract_ids_in_order ⟨some (.str "token")⟩
    (fun _ => ⟨200, contractsPayload [1, 2] (fun _ => [])⟩) [1, 2] (fun _ => []) rfl rfl

/-- Claim C5: the legacy `get_id` returns the sole contract id when the
extracted id list has exactly one entry, and raises `MultipleIdError` when it
has zero or two or more. -/
theorem c5_get_id_exactly_one (c : Client) (w : World) (ids : List Int)
    (extra : Int → List (String × Json))
    (htok : tokenTruthy c.access_token = true)
    (hresp : w (contractsRequest c) = ⟨200, contractsPayload ids extra⟩) :
    (∀ i, ids = [i] → Legacy.get_id c w = (.ok (.num i), c, [contractsRequest c])) ∧
    (ids.length ≠ 1 →
      Legacy.get_id c w = (.error .multipleIdError, c, [contractsRequest c])) := by
  have h := legacy_get_ids_eval c w ids extra htok hresp
  constructor
  · rintro i rfl
    unfold Legacy.get_id
    rw [h]
    rfl
  · intro hlen
    unfold Legacy.get_id
    rw [h]
    rcases ids with _ | ⟨i, _ | ⟨j, rest⟩⟩
    · rfl
    · exact absurd rfl hlen
    · rfl

/-- Witness for claim C5: one contract yields its id, two contracts raise. -/
theorem c5_get_id_exactly_one_witness :
    Legacy.get_id ⟨some (.str "token")⟩ (fun _ => ⟨200, contractsPayload [7] (fun _ => [])⟩)
      = (.ok (.num 7), ⟨some (.str "token")⟩, [contractsRequest ⟨some (.str "token")⟩]) ∧
    Legacy.get_id ⟨some (.str "token")⟩ (fun _ => ⟨200, contractsPayload [1, 2] (fun _ => [])⟩)
      = (.error .multipleIdError, ⟨some (.str "token")⟩,
         [contractsRequest ⟨some (.str "token")⟩]) :=
  ⟨(c5_get_id_exactly_one ⟨some (.str "token")⟩
      (fun _ => ⟨200, contractsPayload [7] (fun _ => [])⟩) [7] (fun _ => []) rfl rfl).1 7 rfl,
   (c5_get_id_exactly_one ⟨some (.str "token")⟩
      (fun _ => ⟨200, contractsPayload [1, 2] (fun _ => [])⟩) [1, 2] (fun _ => []) rfl rfl).2
     (by decide)⟩

/-- Claim C9: the legacy id extraction and the current one are the same
function of the client state and the network — on every token state and
every response (hence every payload) they return identical results, identical
client state, and an identical request trace. -/
theorem c9_legacy_current_ids_equiv (c : Client) (w : World) :
    Legacy.get_ids c w = Current.get_contract_ids c w := rfl

/-- Claim C10: a client whose stored token is falsy — the empty string, or
any other falsy value — is treated exactly like one with no token, because
the gate tests `not self.access_token`: every gated operation, including the
derived ones, raises `NotAuthenticatedError` with no request issued. -/
theorem c10_falsy_token_gate (j : Json) (h : j.truthy = false) (w : World)
    (contract_id device_id period : Int) (start finish : DateObj)
    (parse : String → Except PyError PyDatetime) :
    Current.get_contracts ⟨some j⟩ w = (.error .notAuthenticatedError, ⟨some j⟩, []) ∧
    Current.get_contract_ids ⟨some j⟩ w = (.error .notAuthenticatedError, ⟨some j⟩, []) ∧
    Current.get_devices ⟨some j⟩ w contract_id
      = (.error .notAuthenticatedError, ⟨some j⟩, []) ∧
    Current.get_measurements ⟨some j⟩ w device_id period start finish
      = (.error .notAuthenticatedError, ⟨some j⟩, []) ∧
    Current.get_start_end ⟨some j⟩ w parse contract_id device_id
      = (.error .notAuthenticatedError, ⟨some j⟩, []) ∧
    Legacy.get_contracts ⟨some j⟩ w = (.error .notAuthenticatedError, ⟨some j⟩, []) ∧
    Legacy.get_ids ⟨some j⟩ w = (.error .notAuthenticatedError, ⟨some j⟩, []) ∧
    Legacy.get_id ⟨some j⟩ w = (.error .notAuthenticatedError, ⟨some j⟩, []) ∧
    Legacy.get_devices ⟨some j⟩ w device_id
      = (.error .notAuthenticatedError, ⟨some j⟩, []) := by
  have ht : tokenTruthy (some j) = false := h
  have hcc : Current.get_contracts ⟨some j⟩ w = (.error .notAuthenticatedError, ⟨some j⟩, []) := by
    unfold Current.get_contracts
    rw [ht]
    rfl
  have hcd : Current.get_devices ⟨some j⟩ w contract_id
      = (.error .notAuthenticatedError, ⟨some j⟩, []) := by
    unfold Current.get_devices
    rw [ht]
    rfl
  have hlc : Legacy.get_contracts ⟨some j⟩ w = (.error .notAuthenticatedError, ⟨some j⟩, []) := by
    unfold Legacy.get_contracts
    rw [ht]
    rfl
  have hli : Legacy.get_ids ⟨some j⟩ w = (.error .notAuthenticatedError, ⟨some j⟩, []) := by
    unfold Legacy.get_ids
    rw [hlc]
  refine ⟨hcc, ?_, hcd, ?_, ?_, hlc, hli, ?_, ?_⟩
  · unfold Current.get_contract_ids
    rw [hcc]
  · unfold Current.get_measurements
    rw [ht]
    rfl
  · unfold Current.get_start_end
    rw [hcd]
  · unfold Legacy.get_id
    rw [hli]
  · unfold Legacy.get_devices
    rw [ht]
    rfl

/-- Witness for claim C10: the theorem applied at the empty-string token. -/
theorem c10_falsy_token_gate_witness :
    Current.get_contracts ⟨some (.str "")⟩ (fun _ => ⟨200, .null⟩)
      = (.error .notAuthenticatedError, ⟨some (.str "")⟩, []) :=
  (c10_falsy_token_gate (.str "") rfl (fun _ => ⟨200, .null⟩) 0 0 0 (.str "x") (.str "y")
    (fun _ => .error .valueError)).1

/-- A scan over a device list whose head has the requested id stops at the
head and parses its two timestamp attributes. -/
theorem scan_devices_head_match (parse : String → Except PyError PyDatetime)
    (device_id : Int) (s1 s2 : String) (t1 t2 : PyDatetime) (rest : List Json)
    (h1 : parse s1 = .ok t1) (h2 : parse s2 = .ok t2) :
    Current.scan_devices parse device_id (deviceEntry (device_id, s1, s2) :: rest)
      = .ok (some t1, some t2) := by
  have e1 : Current.scan_devices parse device_id (deviceEntry (device_id, s1, s2) :: rest)
      = if device_id == device_id then
          (match parse s1 with
           | .error e => .error e
           | .ok startT =>
             match parse s2 with
             | .error e => .error e
             | .ok endT => .ok (some startT, some endT))
        else Current.scan_devices parse device_id rest := rfl
  rw [e1]
  simp [h1, h2]

/-- A scan over a device list whose head has a different id skips the head. -/
theorem scan_devices_head_skip (parse : String → Except PyError PyDatetime)
    (device_id : Int) (v : Int × String × String) (rest : List Json)
    (hne : v.1 ≠ device_id) :
    Current.scan_devices parse device_id (deviceEntry v :: rest)
      = Current.scan_devices parse device_id rest := by
  have e1 : Current.scan_devices parse device_id (deviceEntry v :: rest)
      = if v.1 == device_id then
          (match parse v.2.1 with
           | .error e => .error e
           | .ok startT =>
             match parse v.2.2 with
             | .error e => .error e
             | .ok endT => .ok (some startT, some endT))
        else Current.scan_devices parse device_id rest := rfl
  rw [e1, if_neg]
  simp [hne]

/-- A scan over a device list holding no entry with the requested id falls
through to the for-else and yields the absent pair. -/
theorem scan_devices_no_match (parse : String → Except PyError PyDatetime)
    (device_id : Int) (devs : List (Int × String × String))
    (h : ∀ v ∈ devs, v.1 ≠ device_id) :
    Current.scan_devices parse device_id (devs.map deviceEntry) = .ok (none, none) := by
  induction devs with
  | nil => rfl
  | cons v rest ih =>
    rw [List.map_cons, scan_devices_head_skip parse device_id v _ (h v (by simp))]
    exact ih (fun u hu => h u (by simp [hu]))

/-- A scan over a device list whose first entry with the requested id carries
the timestamps s1 and s2 yields their parses. -/
theorem scan_devices_first_match (parse : String → Except PyError PyDatetime)
    (device_id : Int) (pre post : List (Int × String × String)) (s1 s2 : String)
    (t1 t2 : PyDatetime) (hpre : ∀ v ∈ pre, v.1 ≠ device_id)
    (h1 : parse s1 = .ok t1) (h2 : parse s2 = .ok t2) :
    Current.scan_devices parse device_id
        ((pre ++ (device_id, s1, s2) :: post).map deviceEntry)
      = .ok (some t1, some t2) := by
  induction pre with
  | nil =>
    rw [List.nil_append, List.map_cons]
    exact scan_devices_head_match parse device_id s1 s2 t1 t2 _ h1 h2
  | cons v rest ih =>
    rw [List.cons_append, List.map_cons,
      scan_devices_head_skip parse device_id v _ (hpre v (by simp))]
    exact ih (fun u hu => hpre u (by simp [hu]))

/-- Evaluation of `get_devices` of the current variant on a truthy token: one request, and
the response handling of `raise_for_status`. -/
theorem current_get_devices_eval (c : Client) (w : World) (contract_id : Int)
    (htok : tokenTruthy c.access_token = true) :
    Current.get_devices c w contract_id =
      match raise_for_status (w (Current.devicesRequest c contract_id)) with
      | .error e => (.error e, c, [Current.devicesRequest c contract_id])
      | .ok _ => (.ok (w (Current.devicesRequest c contract_id)).body, c,
                  [Current.devicesRequest c contract_id]) := by
  have e1 : Current.get_devices c w contract_id =
      if tokenTruthy c.access_token then
        match raise_for_status (w (Current.devicesRequest c contract_id)) with
        | .error e => (.error e, c, [Current.devicesRequest c contract_id])
        | .ok _ => (.ok (w (Current.devicesRequest c contract_id)).body, c,
                    [Current.devicesRequest c contract_id])
      else (.error .notAuthenticatedError, c, []) := rfl
  rw [e1, htok]
  rfl

/-- Evaluation of `get_start_end` on a 200 response carrying a constructed devices payload
reduces to the scan of its device list. -/
theorem current_get_start_end_scan (c : Client) (w : World)
    (parse : String → Except PyError PyDatetime) (contract_id device_id : Int)
    (devs : List (Int × String × String))
    (htok : tokenTruthy c.access_token = true)
    (hresp : w (Current.devicesRequest c contract_id) = ⟨200, devicesPayload devs⟩) :
    Current.get_start_end c w parse contract_id device_id
      = (Current.scan_devices parse device_id (devs.map deviceEntry), c,
         [Current.devicesRequest c contract_id]) := by
  have hd := current_get_devices_eval c w contract_id htok
  rw [hresp] at hd
  have hd2 : Current.get_devices c w contract_id
      = (.ok (devicesPayload devs), c, [Current.devicesRequest c contract_id]) := by
    rw [hd]
    rfl
  unfold Current.get_start_end
  rw [hd2]
  rfl

/-- Claim C6: `get_start_end` scans the device list of the contract linearly:
when some entry has the requested device id it returns the parsed created_at
and last_image_date timestamps of the first such entry, and when no entry has
that id it returns the absent pair rather than failing. -/
theorem c6_get_start_end_linear_scan (c : Client) (w : World)
    (parse : String → Except PyError PyDatetime) (contract_id device_id : Int)
    (devs : List (Int × String × String))
    (htok : tokenTruthy c.access_token = true)
    (hresp : w (Current.devicesRequest c contract_id) = ⟨200, devicesPayload devs⟩) :
    ((∀ v ∈ devs, v.1 ≠ device_id) →
      Current.get_start_end c w parse contract_id device_id
        = (.ok (none, none), c, [Current.devicesRequest c contract_id])) ∧
    (∀ pre post s1 s2 t1 t2, devs = pre ++ (device_id, s1, s2) :: post →
      (∀ v ∈ pre, v.1 ≠ device_id) → parse s1 = .ok t1 → parse s2 = .ok t2 →
      Current.get_start_end c w parse contract_id device_id
        = (.ok (some t1, some t2), c, [Current.devicesRequest c contract_id])) := by
  have hs := current_get_start_end_scan c w parse contract_id device_id devs htok hresp
  constructor
  · intro h
    rw [hs, scan_devices_no_match parse device_id devs h]
  · rintro pre post s1 s2 t1 t2 rfl hpre h1 h2
    rw [hs, scan_devices_first_match parse device_id pre post s1 s2 t1 t2 hpre h1 h2]

/-- Witness for claim C6: a device list without the requested id yields the
absent pair; a list whose second entry has the id yields its parsed
timestamps. -/
theorem c6_get_start_end_linear_scan_witness :
    Current.get_start_end ⟨some (.str "token")⟩
        (fun _ => ⟨200, devicesPayload [(1, "a", "b")]⟩)
        (fun _ => .ok ⟨2020, 1, 1, 0, 0, none⟩) 3 2
      = (.ok (none, none), ⟨some (.str "token")⟩,
         [Current.devicesRequest ⟨some (.str "token")⟩ 3]) ∧
    Current.get_start_end ⟨some (.str "token")⟩
        (fun _ => ⟨200, devicesPayload [(1, "a", "b"), (2, "c", "d")]⟩)
        (fun _ => .ok ⟨2020, 1, 1, 0, 0, none⟩) 3 2
      = (.ok (some ⟨2020, 1, 1, 0, 0, none⟩, some ⟨2020, 1, 1, 0, 0, none⟩),
         ⟨some (.str "token")⟩, [Current.devicesRequest ⟨some (.str "token")⟩ 3]) :=
  ⟨(c6_get_start_end_linear_scan ⟨some (.str "token")⟩
      (fun _ => ⟨200, devicesPayload [(1, "a", "b")]⟩)
      (fun _ => .ok ⟨2020, 1, 1, 0, 0, none⟩) 3 2 [(1, "a", "b")] rfl rfl).1 (by decide),
   (c6_get_start_end_linear_scan ⟨some (.str "token")⟩
      (fun _ => ⟨200, devicesPayload [(1, "a", "b"), (2, "c", "d")]⟩)
      (fun _ => .ok ⟨2020, 1, 1, 0, 0, none⟩) 3 2 [(1, "a", "b"), (2, "c", "d")] rfl rfl).2
     [(1, "a", "b")] [] "c" "d" ⟨2020, 1, 1, 0, 0, none⟩ ⟨2020, 1, 1, 0, 0, none⟩ rfl
     (by decide) rfl rfl⟩

/-- Zeta-reduced evaluation of the current `authenticate`. -/
theorem current_authenticate_cases (c : Client) (w : World) (u p : String) :
    Current.authenticate c w u p =
      match raise_for_status (w (authRequest u p)) with
      | .error e => (.error e, c, [authRequest u p])
      | .ok _ =>
        match (w (authRequest u p)).body.get "access_token" with
        | .error e => (.error e, c, [authRequest u p])
        | .ok tok => (.ok (), ⟨some tok⟩, [authRequest u p]) := rfl

/-- Zeta-reduced evaluation of the legacy `authenticate`. -/
theorem legacy_authenticate_cases (c : Client) (w : World) (u p : String) :
    Legacy.authenticate c w u p =
      match raise_for_status (w (authRequest u p)) with
      | .error e => (.error e, c, [authRequest u p])
      | .ok _ =>
        match (w (authRequest u p)).body.get "access_token" with
        | .error e => (.error e, c, [authRequest u p])
        | .ok tok => (.ok (), ⟨some tok⟩, [authRequest u p]) := rfl

/-- Zeta-reduced evaluation of the current `get_contracts`. -/
theorem current_get_contracts_cases (c : Client) (w : World) :
    Current.get_contracts c w =
      if tokenTruthy c.access_token then
        match raise_for_status (w (contractsRequest c)) with
        | .error e => (.error e, c, [contractsRequest c])
        | .ok _ => (.ok (w (contractsRequest c)).body, c, [contractsRequest c])
      else (.error .notAuthenticatedError, c, []) := rfl

/-- Zeta-reduced evaluation of the legacy `get_contracts`. -/
theorem legacy_get_contracts_cases (c : Client) (w : World) :
    Legacy.get_contracts c w =
      if tokenTruthy c.access_token then
        match raise_for_status (w (contractsRequest c)) with
        | .error e => (.error e, c, [contractsRequest c])
        | .ok _ => (.ok (w (contractsRequest c)).body, c, [contractsRequest c])
      else (.error .notAuthenticatedError, c, []) := rfl

/-- Zeta-reduced evaluation of the current `get_devices`. -/
theorem current_get_devices_cases (c : Client) (w : World) (contract_id : Int) :
    Current.get_devices c w contract_id =
      if tokenTruthy c.access_token then
        match raise_for_status (w (Current.devicesRequest c contract_id)) with
        | .error e => (.error e, c, [Current.devicesRequest c contract_id])
        | .ok _ => (.ok (w (Current.devicesRequest c contract_id)).body, c,
                    [Current.devicesRequest c contract_id])
      else (.error .notAuthenticatedError, c, []) := rfl

/-- Zeta-reduced evaluation of the legacy `get_devices`. -/
theorem legacy_get_devices_cases (c : Client) (w : World) (id : Int) :
    Legacy.get_devices c w id =
      if tokenTruthy c.access_token then
        match raise_for_status (w (Legacy.devicesRequest c id)) with
        | .error e => (.error e, c, [Legacy.devicesRequest c id])
        | .ok _ => (.ok (w (Legacy.devicesRequest c id)).body, c, [Legacy.devicesRequest c id])
      else (.error .notAuthenticatedError, c, []) := rfl

/-- Zeta-reduced evaluation of `get_measurements`. -/
theorem current_get_measurements_cases (c : Client) (w : World) (did per : Int)
    (start finish : DateObj) :
    Current.get_measurements c w did per start finish =
      if tokenTruthy c.access_token then
        match to_date start with
        | .error e => (.error e, c, [])
        | .ok startStr =>
          match to_date finish with
          | .error e => (.error e, c, [])
          | .ok endStr =>
            match raise_for_status (w (Current.measuresRequest c did per startStr endStr)) with
            | .error e => (.error e, c, [Current.measuresRequest c did per startStr endStr])
            | .ok _ => (.ok (w (Current.measuresRequest c did per startStr endStr)).body, c,
                        [Current.measuresRequest c did per startStr endStr])
      else (.error .notAuthenticatedError, c, []) := rfl

/-- The current `get_contracts` never changes the client state. -/
theorem current_get_contracts_client (c : Client) (w : World) :
    (Current.get_contracts c w).2.1 = c := by
  rw [current_get_contracts_cases]
  split
  · split <;> rfl
  · rfl

/-- The legacy `get_contracts` never changes the client state. -/
theorem legacy_get_contracts_client (c : Client) (w : World) :
    (Legacy.get_contracts c w).2.1 = c := by
  rw [legacy_get_contracts_cases]
  split
  · split <;> rfl
  · rfl

/-- The current `get_devices` never changes the client state. -/
theorem current_get_devices_client (c : Client) (w : World) (cid : Int) :
    (Current.get_devices c w cid).2.1 = c := by
  rw [current_get_devices_cases]
  split
  · split <;> rfl
  · rfl

/-- The legacy `get_devices` never changes the client state. -/
theorem legacy_get_devices_client (c : Client) (w : World) (id : Int) :
    (Legacy.get_devices c w id).2.1 = c := by
  rw [legacy_get_devices_cases]
  split
  · split <;> rfl
  · rfl

/-- Operation `get_measurements` never changes the client state. -/
theorem current_get_measurements_client (c : Client) (w : World) (did per : Int)
    (start finish : DateObj) :
    (Current.get_measurements c w did per start finish).2.1 = c := by
  rw [current_get_measurements_cases]
  split
  · split
    · rfl
    · split
      · rfl
      · split <;> rfl
  · rfl

/-- Operation `get_contract_ids` never changes the client state. -/
theorem current_get_contract_ids_client (c : Client) (w : World) :
    (Current.get_contract_ids c w).2.1 = c := by
  have h := current_get_contracts_client c w
  unfold Current.get_contract_ids
  rcases hgc : Current.get_contracts c w with ⟨r1, c2, tr⟩
  rw [hgc] at h
  cases r1 with
  | error e => exact h
  | ok contracts =>
    show (match contracts.get "data" with
          | .error e => ((.error e : Except PyError (List Json)), c2, tr)
          | .ok (.arr entries) =>
            (entries.mapM (fun contract : Json => contract.get "id"), c2, tr)
          | .ok _ => (.error .typeError, c2, tr)).2.1 = c
    rcases contracts.get "data" with e | j
    · exact h
    · cases j <;> exact h

/-- The legacy `get_ids` never changes the client state. -/
theorem legacy_get_ids_client (c : Client) (w : World) :
    (Legacy.get_ids c w).2.1 = c := by
  have h : Legacy.get_ids c w = Current.get_contract_ids c w := rfl
  rw [h]
  exact current_get_contract_ids_client c w

/-- The legacy `get_id` never changes the client state. -/
theorem legacy_get_id_client (c : Client) (w : World) :
    (Legacy.get_id c w).2.1 = c := by
  have h := legacy_get_ids_client c w
  unfold Legacy.get_id
  rcases hgi : Legacy.get_ids c w with ⟨r1, c2, tr⟩
  rw [hgi] at h
  cases r1 with
  | error e => exact h
  | ok ids =>
    show (match ids with
          | [i] => ((.ok i : Except PyError Json), c2, tr)
          | _ => (.error .multipleIdError, c2, tr)).2.1 = c
    rcases ids with _ | ⟨i, _ | ⟨j, rest⟩⟩ <;> exact h

/-- Operation `get_start_end` never changes the client state. -/
theorem current_get_start_end_client (c : Client) (w : World)
    (parse : String → Except PyError PyDatetime) (cid did : Int) :
    (Current.get_start_end c w parse cid did).2.1 = c := by
  have h := current_get_devices_client c w cid
  unfold Current.get_start_end
  rcases hgd : Current.get_devices c w cid with ⟨r1, c2, tr⟩
  rw [hgd] at h
  cases r1 with
  | error e => exact h
  | ok devices =>
    show (match devices.get "data" with
          | .error e =>
            ((.error e : Except PyError (Option PyDatetime × Option PyDatetime)), c2, tr)
          | .ok (.arr entries) => (Current.scan_devices parse did entries, c2, tr)
          | .ok _ => (.error .typeError, c2, tr)).2.1 = c
    rcases devices.get "data" with e | j
    · exact h
    · cases j <;> exact h

/-- When the current `authenticate` fails, the stored token is unchanged. -/
theorem current_authenticate_frame (c : Client) (w : World) (u p : String) (e : PyError)
    (h : (Current.authenticate c w u p).1 = .error e) :
    (Current.authenticate c w u p).2.1 = c := by
  rw [current_authenticate_cases] at h ⊢
  revert h
  rcases raise_for_status (w (authRequest u p)) with e2 | u2
  · intro h
    rfl
  · rcases (w (authRequest u p)).body.get "access_token" with e3 | tok
    · intro h
      rfl
    · intro h
      exact Except.noConfusion h

/-- When the legacy `authenticate` fails, the stored token is unchanged. -/
theorem legacy_authenticate_frame (c : Client) (w : World) (u p : String) (e : PyError)
    (h : (Legacy.authenticate c w u p).1 = .error e) :
    (Legacy.authenticate c w u p).2.1 = c := by
  rw [legacy_authenticate_cases] at h ⊢
  revert h
  rcases raise_for_status (w (authRequest u p)) with e2 | u2
  · intro h
    rfl
  · rcases (w (authRequest u p)).body.get "access_token" with e3 | tok
    · intro h
      rfl
    · intro h
      exact Except.noConfusion h

/-- Claim C7: `authenticate` is the only operation that mutates client state.
Every data-fetching operation of either variant returns the client state it
was given, and when `authenticate` itself fails — 4xx or 5xx response, or a
response body missing the access_token field — the stored token is also
unchanged. -/
theorem c7_only_authenticate_mutates (c : Client) (w : World) (u p : String)
    (cid did per : Int) (start finish : DateObj)
    (parse : String → Except PyError PyDatetime) :
    (∀ e, (Current.authenticate c w u p).1 = .error e →
       (Current.authenticate c w u p).2.1 = c) ∧
    (∀ e, (Legacy.authenticate c w u p).1 = .error e →
       (Legacy.authenticate c w u p).2.1 = c) ∧
    (Current.get_contracts c w).2.1 = c ∧
    (Current.get_contract_ids c w).2.1 = c ∧
    (Current.get_devices c w cid).2.1 = c ∧
    (Current.get_measurements c w did per start finish).2.1 = c ∧
    (Current.get_start_end c w parse cid did).2.1 = c ∧
    (Legacy.get_contracts c w).2.1 = c ∧
    (Legacy.get_ids c w).2.1 = c ∧
    (Legacy.get_id c w).2.1 = c ∧
    (Legacy.get_devices c w did).2.1 = c :=
  ⟨fun e h => current_authenticate_frame c w u p e h,
   fun e h => legacy_authenticate_frame c w u p e h,
   current_get_contracts_client c w,
   current_get_contract_ids_client c w,
   current_get_devices_client c w cid,
   current_get_measurements_client c w did per start finish,
   current_get_start_end_client c w parse cid did,
   legacy_get_contracts_client c w,
   legacy_get_ids_client c w,
   legacy_get_id_client c w,
   legacy_get_devices_client c w did⟩

/-- Witness for claim C7: a failing `authenticate` (500 response) leaves the
empty client unchanged in both variants, and a data call leaves it unchanged
too. -/
theorem c7_only_authenticate_mutates_witness :
    (Current.authenticate ⟨none⟩ (fun _ => ⟨500, .null⟩) "u" "p").2.1 = (⟨none⟩ : Client) ∧
    (Legacy.authenticate ⟨none⟩ (fun _ => ⟨500, .null⟩) "u" "p").2.1 = (⟨none⟩ : Client) ∧
    (Current.get_contracts ⟨none⟩ (fun _ => ⟨500, .null⟩)).2.1 = (⟨none⟩ : Client) :=
  ⟨(c7_only_authenticate_mutates ⟨none⟩ (fun _ => ⟨500, .null⟩) "u" "p" 0 0 0
      (.str "x") (.str "y") (fun _ => .error .valueError)).1 (.httpError 500) rfl,
   (c7_only_authenticate_mutates ⟨none⟩ (fun _ => ⟨500, .null⟩) "u" "p" 0 0 0
      (.str "x") (.str "y") (fun _ => .error .valueError)).2.1 (.httpError 500) rfl,
   (c7_only_authenticate_mutates ⟨none⟩ (fun _ => ⟨500, .null⟩) "u" "p" 0 0 0
      (.str "x") (.str "y") (fun _ => .error .valueError)).2.2.1⟩

/-- Evaluation of `raise_for_status` on a 4xx or 5xx response raises the status error. -/
theorem raise_for_status_err (r : Response) (h4 : 400 ≤ r.status) (h6 : r.status < 600) :
    raise_for_status r = .error (.httpError r.status) := by
  unfold raise_for_status
  rw [if_pos ⟨h4, h6⟩]

/-- Evaluation of `raise_for_status`: it returns normally on every status below 400. -/
theorem raise_for_status_lt400 (r : Response) (h : r.status < 400) :
    raise_for_status r = .ok () := by
  unfold raise_for_status
  have hn : ¬ (400 ≤ r.status ∧ r.status < 600) := by omega
  rw [if_neg hn]

/-- A dict subscript never raises an HTTP error: its failures are `KeyError`
and `TypeError` only. -/
theorem Json.get_ne_httpError (j : Json) (k : String) (s : Nat) :
    j.get k ≠ .error (.httpError s) := by
  cases j with
  | obj fields =>
    show (match fields.lookup k with
          | some v => (.ok v : Except PyError Json)
          | none => .error (.keyError k)) ≠ .error (.httpError s)
    rcases hl : fields.lookup k with _ | v <;> simp [hl]
  | null => simp [Json.get]
  | bool b => simp [Json.get]
  | num n => simp [Json.get]
  | str t => simp [Json.get]
  | arr elems => simp [Json.get]

/-- Claim C8, counterexample to the claim as stated: 304 is not a 2xx
status, yet `get_contracts` on a 304 response raises no error at all and
returns the JSON body — `raise_for_status` only raises for 4xx and 5xx. -/
theorem c8_counterexample :
    (¬ (200 ≤ 304 ∧ 304 ≤ 299)) ∧
    Current.get_contracts ⟨some (.str "token")⟩ (fun _ => ⟨304, .null⟩)
      = (.ok .null, ⟨some (.str "token")⟩, [contractsRequest ⟨some (.str "token")⟩]) :=
  ⟨by decide, rfl⟩

/-- Claim C8 (amended): every operation that issues a network request raises
an error carrying the HTTP status on a 4xx or 5xx response, after exactly one
request and with no retry; on statuses below 400 (2xx, and also 3xx such as
304) no such error is raised, and the data-fetching operations return the
JSON body. -/
theorem c8_http_status_handling (c : Client) (w : World) (u p : String)
    (cid did per : Int) (start finish : DateObj) (startStr endStr : String)
    (htok : tokenTruthy c.access_token = true)
    (hstart : to_date start = .ok startStr) (hfinish : to_date finish = .ok endStr) :
    (400 ≤ (w (authRequest u p)).status → (w (authRequest u p)).status < 600 →
      Current.authenticate c w u p
        = (.error (.httpError (w (authRequest u p)).status), c, [authRequest u p])) ∧
    (400 ≤ (w (authRequest u p)).status → (w (authRequest u p)).status < 600 →
      Legacy.authenticate c w u p
        = (.error (.httpError (w (authRequest u p)).status), c, [authRequest u p])) ∧
    (400 ≤ (w (contractsRequest c)).status → (w (contractsRequest c)).status < 600 →
      Current.get_contracts c w
        = (.error (.httpError (w (contractsRequest c)).status), c, [contractsRequest c])) ∧
    (400 ≤ (w (contractsRequest c)).status → (w (contractsRequest c)).status < 600 →
      Legacy.get_contracts c w
        = (.error (.httpError (w (contractsRequest c)).status), c, [contractsRequest c])) ∧
    (400 ≤ (w (Current.devicesRequest c cid)).status →
      (w (Current.devicesRequest c cid)).status < 600 →
      Current.get_devices c w cid
        = (.error (.httpError (w (Current.devicesRequest c cid)).status), c,
           [Current.devicesRequest c cid])) ∧
    (400 ≤ (w (Legacy.devicesRequest c did)).status →
      (w (Legacy.devicesRequest c did)).status < 600 →
      Legacy.get_devices c w did
        = (.error (.httpError (w (Legacy.devicesRequest c did)).status), c,
           [Legacy.devicesRequest c did])) ∧
    (400 ≤ (w (Current.measuresRequest c did per startStr endStr)).status →
      (w (Current.measuresRequest c did per startStr endStr)).status < 600 →
      Current.get_measurements c w did per start finish
        = (.error (.httpError (w (Current.measuresRequest c did per startStr endStr)).status),
           c, [Current.measuresRequest c did per startStr endStr])) ∧
    ((w (contractsRequest c)).status < 400 →
      Current.get_contracts c w
        = (.ok (w (contractsRequest c)).body, c, [contractsRequest c])) ∧
    ((w (contractsRequest c)).status < 400 →
      Legacy.get_contracts c w
        = (.ok (w (contractsRequest c)).body, c, [contractsRequest c])) ∧
    ((w (Current.devicesRequest c cid)).status < 400 →
      Current.get_devices c w cid
        = (.ok (w (Current.devicesRequest c cid)).body, c, [Current.devicesRequest c cid])) ∧
    ((w (Legacy.devicesRequest c did)).status < 400 →
      Legacy.get_devices c w did
        = (.ok (w (Legacy.devicesRequest c did)).body, c, [Legacy.devicesRequest c did])) ∧
    ((w (Current.measuresRequest c did per startStr endStr)).status < 400 →
      Current.get_measurements c w did per start finish
        = (.ok (w (Current.measuresRequest c did per startStr endStr)).body, c,
           [Current.measuresRequest c did per startStr endStr])) ∧
    ((w (authRequest u p)).status < 400 →
      ∀ s2, (Current.authenticate c w u p).1 ≠ .error (.httpError s2)) ∧
    ((w (authRequest u p)).status < 400 →
      ∀ s2, (Legacy.authenticate c w u p).1 ≠ .error (.httpError s2)) := by
  refine ⟨?_, ?_, ?_, ?_, ?_, ?_, ?_, ?_, ?_, ?_, ?_, ?_, ?_, ?_⟩
  · intro h4 h6
    rw [current_authenticate_cases, raise_for_status_err _ h4 h6]
  · intro h4 h6
    rw [legacy_authenticate_cases, raise_for_status_err _ h4 h6]
  · intro h4 h6
    rw [current_get_contracts_cases, htok, if_pos rfl, raise_for_status_err _ h4 h6]
  · intro h4 h6
    rw [legacy_get_contracts_cases, htok, if_pos rfl, raise_for_status_err _ h4 h6]
  · intro h4 h6
    rw [current_get_devices_cases, htok, if_pos rfl, raise_for_status_err _ h4 h6]
  · intro h4 h6
    rw [legacy_get_devices_cases, htok, if_pos rfl, raise_for_status_err _ h4 h6]
  · intro h4 h6
    rw [current_get_measurements_cases, htok, if_pos rfl, hstart, hfinish]
    show (match raise_for_status (w (Current.measuresRequest c did per startStr endStr)) with
          | .error e => ((.error e : Except PyError Json), c,
                         [Current.measuresRequest c did per startStr endStr])
          | .ok _ => (.ok (w (Current.measuresRequest c did per startStr endStr)).body, c,
                      [Current.measuresRequest c did per startStr endStr]))
        = (.error (.httpError (w (Current.measuresRequest c did per startStr endStr)).status),
           c, [Current.measuresRequest c did per startStr endStr])
    rw [raise_for_status_err _ h4 h6]
  · intro hlt
    rw [current_get_contracts_cases, htok, if_pos rfl, raise_for_status_lt400 _ hlt]
  · intro hlt
    rw [legacy_get_contracts_cases, htok, if_pos rfl, raise_for_status_lt400 _ hlt]
  · intro hlt
    rw [current_get_devices_cases, htok, if_pos rfl, raise_for_status_lt400 _ hlt]
  · intro hlt
    rw [legacy_get_devices_cases, htok, if_pos rfl, raise_for_status_lt400 _ hlt]
  · intro hlt
    rw [current_get_measurements_cases, htok, if_pos rfl, hstart, hfinish]
    show (match raise_for_status (w (Current.measuresRequest c did per startStr endStr)) with
          | .error e => ((.error e : Except PyError Json), c,
                         [Current.measuresRequest c did per startStr endStr])
          | .ok _ => (.ok (w (Current.measuresRequest c did per startStr endStr)).body, c,
                      [Current.measuresRequest c did per startStr endStr]))
        = (.ok (w (Current.measuresRequest c did per startStr endStr)).body, c,
           [Current.measuresRequest c did per startStr endStr])
    rw [raise_for_status_lt400 _ hlt]
  · intro hlt s2 hcontra
    rw [current_authenticate_cases, raise_for_status_lt400 _ hlt] at hcontra
    revert hcontra
    rcases hget : (w (authRequest u p)).body.get "access_token" with e3 | tok
    · intro hcontra
      have he3 : e3 = .httpError s2 := by
        simpa using hcontra
      rw [he3] at hget
      exact Json.get_ne_httpError _ _ _ hget
    · intro hcontra
      exact Except.noConfusion hcontra
  · intro hlt s2 hcontra
    rw [legacy_authenticate_cases, raise_for_status_lt400 _ hlt] at hcontra
    revert hcontra
    rcases hget : (w (authRequest u p)).body.get "access_token" with e3 | tok
    · intro hcontra
      have he3 : e3 = .httpError s2 := by
        simpa using hcontra
      rw [he3] at hget
      exact Json.get_ne_httpError _ _ _ hget
    · intro hcontra
      exact Except.noConfusion hcontra

/-- Witness for claim C8: on a 500 response `get_contracts` raises the error
carrying status 500 after one request; on a 200 response it returns the
body. -/
theorem c8_http_status_handling_witness :
    Current.get_contracts ⟨some (.str "token")⟩ (fun _ => ⟨500, .null⟩)
      = (.error (.httpError 500), ⟨some (.str "token")⟩,
         [contractsRequest ⟨some (.str "token")⟩]) ∧
    Current.get_contracts ⟨some (.str "token")⟩ (fun _ => ⟨200, .null⟩)
      = (.ok .null, ⟨some (.str "token")⟩, [contractsRequest ⟨some (.str "token")⟩]) :=
  ⟨(c8_http_status_handling ⟨some (.str "token")⟩ (fun _ => ⟨500, .null⟩) "u" "p" 0 0 0
      (.str "2020-01-01") (.str "2020-01-02") "2020-01-01" "2020-01-02" rfl rfl rfl).2.2.1
     (by decide) (by decide),
   (c8_http_status_handling ⟨some (.str "token")⟩ (fun _ => ⟨200, .null⟩) "u" "p" 0 0 0
      (.str "2020-01-01") (.str "2020-01-02") "2020-01-01" "2020-01-02"
      rfl rfl rfl).2.2.2.2.2.2.2.1 (by decide)⟩

end June
